import Mathlib

/-!
Shallow embedding of the Bravola analytics core (backend/app) and proofs
about it.  Numeric values of the Python source (floats, SQL numerics) are
modelled as rationals; fallible operations (database reads, model loading,
cache access) are modelled with explicit `Except` values; `None`-able ORM
columns are modelled with `Option`.

Source files embedded below:
- backend/app/benchmark/metrics.py   (BenchmarkMetrics.calculate_performance_score)
- backend/app/benchmark/engine.py    (BenchmarkEngine._calculate_percentile_score,
                                      the scoring part of analyze_merchant)
- backend/app/api/v1/benchmark.py    (get_stat)
- backend/app/strategy/engine.py     (StrategyEngine.generate_strategies and helpers)
- backend/app/models/strategy.py     (StrategyRule row shape)
- backend/app/api/v1/strategy.py     (the generate endpoint call shape)
- backend/app/ml/monitoring/drift.py (check_model_drift)
- backend/app/ml/feature_store.py    (FeatureStore.get_merchant_features)
-/

namespace Bravola

/-- Python `round` ties-to-even on an exact rational: nearest integer,
half-way cases to the even integer. -/
def roundHalfEven (q : ℚ) : ℤ :=
  let f : ℤ := ⌊q⌋
  let r : ℚ := q - (f : ℚ)
  if r < 1/2 then f
  else if 1/2 < r then f + 1
  else if f % 2 = 0 then f else f + 1

/-- Python `round(x, 2)` on the rational model. -/
def round2 (q : ℚ) : ℚ := ((roundHalfEven (100 * q) : ℤ) : ℚ) / 100

/-- Python `abs` on the rational model (kept as a plain definition so that
concrete inputs evaluate by kernel reduction). -/
def qabs (q : ℚ) : ℚ := if q < 0 then -q else q

/-- backend/app/benchmark/metrics.py, BenchmarkMetrics.calculate_performance_score:
piecewise 0-100 score of `value` against the peer p25/p50/p75, rounded to two
decimal places at the end. -/
def calculatePerformanceScore (value p25 p50 p75 : ℚ) : ℚ :=
  let score : ℚ :=
    if value ≤ p25 then
      if p25 > 0 then 25 * (value / p25) else 25
    else if value ≤ p50 then
      if p50 - p25 > 0 then 25 + 25 * ((value - p25) / (p50 - p25)) else 25
    else if value ≤ p75 then
      if p75 - p50 > 0 then 50 + 25 * ((value - p50) / (p75 - p50)) else 50
    else
      if p75 > 0 then min 100 (75 + 25 * ((value - p75) / p75)) else 75
  round2 score

/-- backend/app/benchmark/engine.py, BenchmarkEngine._calculate_percentile_score:
same piecewise formula as the metrics module but without the final rounding. -/
def calculatePercentileScore (value p25 p50 p75 : ℚ) : ℚ :=
  if value ≤ p25 then
    if p25 > 0 then 25 * (value / p25) else 25
  else if value ≤ p50 then
    if p50 - p25 > 0 then 25 + 25 * ((value - p25) / (p50 - p25)) else 25
  else if value ≤ p75 then
    if p75 - p50 > 0 then 50 + 25 * ((value - p50) / (p75 - p50)) else 50
  else
    if p75 > 0 then min 100 (75 + 25 * ((value - p75) / p75)) else 75

/-- backend/app/api/v1/benchmark.py, the `get_stat` helper of the analyze
endpoint: qualitative status of a score. -/
def getStat (scoreVal : ℚ) : String :=
  if scoreVal > 60 then "above"
  else if scoreVal < 40 then "below"
  else "average"

/-! ## Strategy engine (backend/app/strategy/engine.py) -/

/-- backend/app/models/merchant.py: the Merchant columns consumed by the
strategy engine and the feature store.  Nullable columns are `Option`. -/
structure Merchant where
  merchant_id : String
  monthly_revenue : Option ℚ
  aov : Option ℚ
  repeat_purchase_rate : Option ℚ
  ltv : Option ℚ
  email_subscriber_count : Option ℤ
  total_customers : Option ℤ
  total_orders : Option ℤ
deriving DecidableEq

/-- backend/app/models/discovery.py: the DiscoveryProfile columns consumed
by the strategy engine. -/
structure DiscoveryProfile where
  persona : String
  maturity_stage : String
deriving DecidableEq

/-- backend/app/models/benchmark.py: the BenchmarkScore column consumed by
the strategy engine. -/
structure BenchmarkScore where
  overall_score : ℚ
deriving DecidableEq

/-- One entry of `StrategyEngine.strategy_templates` (loaded from the
joblib artifact): description, expected ROI and the optional eligibility
thresholds read by `_check_eligibility`. -/
structure StrategyTemplate where
  description : String
  expected_roi : ℚ
  min_maturity : Option (List String) := none
  min_subscribers : Option ℤ := none
  min_aov : Option ℚ := none
  min_customers : Option ℤ := none
  min_orders : Option ℤ := none
  min_ltv : Option ℤ := none
deriving DecidableEq

/-- Maximal runs of non-whitespace characters, as Python `str.split()`. -/
def splitWsChars : List Char → List (List Char)
  | [] => []
  | c :: cs =>
      if c.isWhitespace then splitWsChars cs
      else
        match splitWsChars cs with
        | [] => [[c]]
        | w :: ws =>
            match cs with
            | [] => [[c]]
            | c2 :: _ => if c2.isWhitespace then [c] :: w :: ws else (c :: w) :: ws

/-- Python `str.split()` (split on whitespace, dropping empty pieces). -/
def pyWords (s : String) : List String :=
  (splitWsChars s.data).map (fun cs => String.mk cs)

/-- First word of a description, as in `template.get('description','').split()[0]`.
(The Python expression raises IndexError when the description has no words;
every template shipped with the engine has a non-empty description, and the
theorems below only instantiate this on such descriptions.) -/
def firstWord (s : String) : String := (pyWords s).headD ""

/-- `pat` occurs contiguously at the head of `hay` (on character lists). -/
def charsPrefix : List Char → List Char → Bool
  | [], _ => true
  | _ :: _, [] => false
  | p :: ps, h :: hs => p == h && charsPrefix ps hs

/-- Python `pat in hay` substring test (on character lists). -/
def charsSub (pat hay : List Char) : Bool :=
  charsPrefix pat hay ||
    match hay with
    | [] => false
    | _ :: hs => charsSub pat hs

/-- Python `pat in hay` substring test on strings. -/
def strContains (hay pat : String) : Bool := charsSub pat.data hay.data

/-- Python `str.lower()` restricted to its ASCII behaviour, which covers
every string the stored rules and personas use. -/
def strLower (s : String) : String := String.mk (s.data.map Char.toLower)

/-- StrategyEngine._check_eligibility: `min_maturity` is only enforced when a
discovery profile exists; every numeric threshold treats a NULL merchant
column as 0. -/
def checkEligibility (m : Merchant) (d : Option DiscoveryProfile)
    (t : StrategyTemplate) : Bool :=
  (match t.min_maturity, d with
   | some stages, some dd => stages.contains dd.maturity_stage
   | _, _ => true) &&
  (match t.min_subscribers with
   | some n => !(m.email_subscriber_count.getD 0 < n)
   | none => true) &&
  (match t.min_aov with
   | some n => !(m.aov.getD 0 < n)
   | none => true) &&
  (match t.min_customers with
   | some n => !(m.total_customers.getD 0 < n)
   | none => true) &&
  (match t.min_orders with
   | some n => !(m.total_orders.getD 0 < n)
   | none => true) &&
  (match t.min_ltv with
   | some n => !((m.ltv.getD 0) < (n : ℚ))
   | none => true)

/-- The `persona_boosts` dict of StrategyEngine._calculate_priority_score. -/
def personaBoosts : List (String × List String) :=
  [("Discount Discounter", ["Seasonal Promotion", "VIP Segment"]),
   ("Brand Builder", ["Post-Purchase", "VIP Segment"]),
   ("Product Pusher", ["New Product Launch"]),
   ("Lifecycle Master", ["Welcome Series", "Re-engagement"]),
   ("Segment Specialist", ["VIP Segment", "Abandoned Cart"])]

/-- StrategyEngine._calculate_priority_score: base score times expected
ROI/100, a 1.2 boost when the latest benchmark overall score is below 50, a
1.15 boost for every persona-matched strategy keyword, a 0.3 penalty when
ineligible, rounded to two decimals.  No randomness appears anywhere in the
source function. -/
def calculatePriorityScore (base : ℚ) (t : StrategyTemplate) (_m : Merchant)
    (d : Option DiscoveryProfile) (b : Option BenchmarkScore)
    (isEligible : Bool) : ℚ :=
  let score := base * (t.expected_roi / 100)
  let score :=
    match b with
    | some bb => if bb.overall_score < 50 then score * (6/5) else score
    | none => score
  let score :=
    match d with
    | some dd =>
        let strategyName := firstWord t.description
        ((personaBoosts.lookup dd.persona).getD []).foldl
          (fun s boostStrategy =>
            if strContains strategyName boostStrategy then s * (23/20) else s)
          score
    | none => score
  let score := if isEligible then score else score * (3/10)
  round2 score

/-- StrategyEngine._generate_action_steps. -/
def generateActionSteps (strategyName : String) (_m : Merchant) : List String :=
  let actionMap : List (String × List String) :=
    [("Welcome Series", ["Create 3-email welcome sequence", "Set up automation triggers", "Design templates", "Add exclusive discount"]),
     ("Abandoned Cart", ["Set up cart tracking", "Create 2-3 reminder emails", "Add urgency elements", "Include recovery incentive"]),
     ("Win-Back", ["Identify inactive customers", "Create win-back offer", "Design email series", "Track reactivation"]),
     ("Post-Purchase", ["Set up automation", "Request feedback", "Recommend products", "Offer loyalty points"]),
     ("VIP Segment", ["Define VIP criteria", "Create exclusive benefits", "Design premium campaigns", "Implement rewards"]),
     ("New Product Launch", ["Build anticipation", "Create launch sequence", "Segment audience", "Offer early-bird discount"]),
     ("Seasonal Promotion", ["Plan campaign calendar", "Create themed templates", "Segment by history", "Design offers"]),
     ("Re-engagement", ["Identify unengaged subscribers", "Create re-engagement email", "Offer return incentive", "Clean list"])]
  (actionMap.lookup strategyName).getD
    ["Define objectives", "Create plan", "Design assets", "Launch"]

/-- StrategyEngine._estimate_effort_timeline. -/
def estimateEffortTimeline (strategyName : String) (_m : Merchant) :
    String × String :=
  let effortMap : List (String × (String × String)) :=
    [("Welcome Series", ("medium", "1-2 weeks")),
     ("Abandoned Cart", ("medium", "1-2 weeks")),
     ("Win-Back", ("low", "3-5 days")),
     ("Post-Purchase", ("medium", "1-2 weeks")),
     ("VIP Segment", ("high", "2-3 weeks")),
     ("New Product Launch", ("medium", "1-2 weeks")),
     ("Seasonal Promotion", ("low", "3-5 days")),
     ("Re-engagement", ("low", "2-4 days"))]
  (effortMap.lookup strategyName).getD ("medium", "1 week")

/-- StrategyEngine._estimate_revenue: NULL revenue is treated as 0. -/
def estimateRevenue (m : Merchant) (expectedRoi : ℚ) : ℚ :=
  let revenue := m.monthly_revenue.getD 0
  let roiMultiplier := expectedRoi / 150
  let baseEstimate := revenue * (1/10)
  round2 (baseEstimate * roiMultiplier)

/-- StrategyEngine._generate_reasons. -/
def generateReasons (_strategyName : String) (_m : Merchant)
    (d : Option DiscoveryProfile) (b : Option BenchmarkScore)
    (isEligible : Bool) : List String :=
  (if isEligible then ["✓ All eligibility criteria met"]
   else ["⚠ Some requirements not yet met"]) ++
  (match d with
   | some dd =>
       ["Aligned with \x27" ++ dd.persona ++ "\x27 persona",
        "Suitable for \x27" ++ dd.maturity_stage ++ "\x27 stage"]
   | none => []) ++
  (match b with
   | some bb =>
       if bb.overall_score < 50 then ["Can help close performance gaps vs peers"]
       else []
   | none => [])

/-- One entry of the `strategy_scores` list built by
StrategyEngine.generate_strategies. -/
structure StrategyRec where
  strategy_name : String
  strategy_type : String
  description : String
  priority_score : ℚ
  expected_roi : ℚ
  estimated_revenue : ℚ
  confidence_score : ℚ
  action_steps : List String
  estimated_effort : String
  timeline : String
  is_eligible : Bool
  reasons : List String
deriving DecidableEq

/-- Stable insertion into a list kept in descending key order: the inserted
element goes before the first element whose key is not larger, so that
insertion by `foldr` keeps the original relative order of equal keys,
matching Python's stable `list.sort(key=..., reverse=True)`. -/
def insertByDesc (key : α → ℚ) (x : α) : List α → List α
  | [] => [x]
  | y :: ys => if key x ≥ key y then x :: y :: ys else y :: insertByDesc key x ys

/-- Stable descending sort by a rational key, matching Python's
`list.sort(key=..., reverse=True)`. -/
def sortByDesc (key : α → ℚ) (l : List α) : List α :=
  l.foldr (insertByDesc key) []

/-- The body of the template loop of StrategyEngine.generate_strategies:
the scored record built for one `(strategy_name, template)` item. -/
def buildStrategyRec (base : ℚ) (m : Merchant) (d : Option DiscoveryProfile)
    (b : Option BenchmarkScore) (item : String × StrategyTemplate) :
    StrategyRec :=
  let strategyName := item.1
  let t := item.2
  let isEligible := checkEligibility m d t
  let priorityScore := calculatePriorityScore base t m d b isEligible
  let actionSteps := generateActionSteps strategyName m
  let et := estimateEffortTimeline strategyName m
  { strategy_name := strategyName
    strategy_type := strategyName
    description := t.description
    priority_score := priorityScore
    expected_roi := t.expected_roi
    estimated_revenue := estimateRevenue m t.expected_roi
    confidence_score := if isEligible then 3/4 else 9/20
    action_steps := actionSteps
    estimated_effort := et.1
    timeline := et.2
    is_eligible := isEligible
    reasons := generateReasons strategyName m d b isEligible }

/-- The full `strategy_scores` list of StrategyEngine.generate_strategies,
before sorting: one record per template, none skipped. -/
def scoreAllTemplates (base : ℚ) (m : Merchant) (d : Option DiscoveryProfile)
    (b : Option BenchmarkScore) (templates : List (String × StrategyTemplate)) :
    List StrategyRec :=
  templates.map (buildStrategyRec base m d b)

/-- StrategyEngine.generate_strategies.  Inputs that the Python method reads
from the outside world are passed explicitly:
`modelsLoaded` is `self.models_loaded`; `discoveryRes` / `benchmarkRes` are
the two awaited database reads (which may raise — uncaught); `prepRes` is the
DataFrame/scaler feature preparation (uncaught); `predictRes` is
`self.ranker_model.predict(...)[0]`, whose failure is caught and replaced by
the default 50.  When models are not loaded the method returns `[]` before
touching any of them.  The scored records are sorted descending by
priority score (stably, as `list.sort`) and truncated to `limit`.
The method accepts no exclusion set and reads no StrategyRule rows. -/
def generateStrategies (modelsLoaded : Bool) (m : Merchant)
    (discoveryRes : Except Unit (Option DiscoveryProfile))
    (benchmarkRes : Except Unit (Option BenchmarkScore))
    (prepRes : Except Unit Unit)
    (predictRes : Except Unit ℚ)
    (templates : List (String × StrategyTemplate)) (limit : ℕ) :
    Except Unit (List StrategyRec) :=
  match modelsLoaded with
  | false => Except.ok []
  | true =>
      match discoveryRes with
      | Except.error e => Except.error e
      | Except.ok d =>
          match benchmarkRes with
          | Except.error e => Except.error e
          | Except.ok b =>
              match prepRes with
              | Except.error e => Except.error e
              | Except.ok _ =>
                  let base : ℚ :=
                    match predictRes with
                    | Except.ok v => v
                    | Except.error _ => 50
                  let scored := scoreAllTemplates base m d b templates
                  Except.ok ((sortByDesc (fun r => r.priority_score) scored).take limit)

/-- Names of the recommendations of a run (empty on a raised error). -/
def resultNames (r : Except Unit (List StrategyRec)) : List String :=
  match r with
  | Except.ok l => l.map (fun s => s.strategy_name)
  | Except.error _ => []

/-- Priority scores of the recommendations of a run (empty on a raised
error). -/
def resultScores (r : Except Unit (List StrategyRec)) : List ℚ :=
  match r with
  | Except.ok l => l.map (fun s => s.priority_score)
  | Except.error _ => []

/-! ## Decision rules (backend/app/models/strategy.py) -/

/-- backend/app/models/strategy.py, class StrategyRule: one stored
orchestrator rule row. -/
structure StrategyRule where
  rule_name : String
  description : String
  condition_metric : String
  operator : String
  threshold_value : String
  action_type : String
  target_strategy_type : String
  impact_factor : ℚ
  is_active : Bool
deriving DecidableEq

/-- A value of the rule-evaluation context map. -/
inductive CtxVal
  | num (q : ℚ)
  | str (s : String)
deriving DecidableEq

/-- Parse a decimal integer threshold string into a rational (sign and
digits); `none` when the string is not a plain integer literal. -/
def parseNumQ (s : String) : Option ℚ :=
  let chars := s.data
  let core := match chars with
    | '-' :: rest => some (true, rest)
    | _ => some (false, chars)
  match core with
  | some (neg, ds) =>
      if ds = [] then none
      else if ds.all (fun c => c.isDigit) then
        let n : ℕ := ds.foldl (fun acc c => acc * 10 + (c.toNat - 48)) 0
        some (if neg then -(n : ℚ) else (n : ℚ))
      else none
  | none => none

/-- Modelled from the spec: the rule-condition context map built from the
entity (revenue, AOV, persona, maturity, benchmark score).  No such map is
built anywhere in backend/app/strategy/engine.py; this definition follows
section 4.4 step 3 of the specification and is used only to state what the
claims say a rule match is. -/
def buildRuleContext (m : Merchant) (d : Option DiscoveryProfile)
    (b : Option BenchmarkScore) : List (String × CtxVal) :=
  [("revenue", CtxVal.num (m.monthly_revenue.getD 0)),
   ("aov", CtxVal.num (m.aov.getD 0))] ++
  (match d with
   | some dd => [("persona", CtxVal.str dd.persona),
                 ("maturity", CtxVal.str dd.maturity_stage)]
   | none => []) ++
  (match b with
   | some bb => [("benchmark_score", CtxVal.num bb.overall_score)]
   | none => [])

/-- Modelled from the spec: evaluation of one DecisionRule condition against
a context map — numeric conditions use numeric comparison, string conditions
use case-insensitive equality or substring containment, and a threshold that
cannot be coerced is treated as non-matching.  No rule evaluator exists in
backend/app/strategy/engine.py; this definition follows sections 4.4 and 7
of the specification and is used only to state what the claims say. -/
def evalRuleCondition (r : StrategyRule) (ctx : List (String × CtxVal)) :
    Bool :=
  match ctx.lookup r.condition_metric with
  | some (CtxVal.num v) =>
      (match r.operator, parseNumQ r.threshold_value with
       | "gt", some t => decide (v > t)
       | "lt", some t => decide (v < t)
       | "eq", some t => decide (v = t)
       | _, _ => false)
  | some (CtxVal.str s) =>
      (match r.operator with
       | "eq" => strLower s == strLower r.threshold_value
       | "contains" => strContains (strLower s) (strLower r.threshold_value)
       | _ => false)
  | none => false

/-! ## The generate endpoint call (backend/app/api/v1/strategy.py) -/

/-- Python call binding for a function with positional-or-keyword parameters
and no `*args` / `**kwargs`: a keyword that is not a parameter name raises
TypeError (unexpected keyword argument), as does a keyword already bound
positionally or an excess positional argument. -/
def bindPyCall (params : List String) (npos : ℕ) (kwargs : List String) :
    Except String Unit :=
  if npos > params.length then
    Except.error "too many positional arguments"
  else if kwargs.any (fun k => !(params.contains k)) then
    Except.error "unexpected keyword argument"
  else if kwargs.any (fun k => (params.take npos).contains k) then
    Except.error "multiple values for argument"
  else Except.ok ()

/-- The parameters of StrategyEngine.generate_strategies (self omitted):
`merchant`, `db` and `limit` — and nothing else. -/
def generateStrategiesParams : List String := ["merchant", "db", "limit"]

/-- The call made by the /generate endpoint
(backend/app/api/v1/strategy.py lines 78-83): two positional arguments
(`current_merchant`, `db`) and the keywords `limit` and `exclude_names`. -/
def generateEndpointCall : Except String Unit :=
  bindPyCall generateStrategiesParams 2 ["limit", "exclude_names"]

/-! ## Benchmark engine scoring (backend/app/benchmark/engine.py) -/

/-- The feature values consumed by the scoring part of
BenchmarkEngine.analyze_merchant. -/
structure BenchFeatures where
  aov : ℚ
  ltv : ℚ
  repeat_purchase_rate : ℚ
  campaign_engagement : ℚ
deriving DecidableEq

/-- One `self.benchmarks[cluster_key]` entry: the peer p25/p50/p75 triples
for the three percentile-scored metrics. -/
structure PeerBenchmarks where
  aov_p25 : ℚ
  aov_p50 : ℚ
  aov_p75 : ℚ
  ltv_p25 : ℚ
  ltv_p50 : ℚ
  ltv_p75 : ℚ
  rpr_p25 : ℚ
  rpr_p50 : ℚ
  rpr_p75 : ℚ
deriving DecidableEq

/-- The score fields of the dict returned by
BenchmarkEngine.analyze_merchant. -/
structure BenchScores where
  aov_score : ℚ
  ltv_score : ℚ
  repeat_rate_score : ℚ
  engagement_score : ℚ
  overall_score : ℚ
deriving DecidableEq

/-- Scoring part of BenchmarkEngine.analyze_merchant (lines 88-113): the
three percentile scores, the engagement score and the overall score. -/
def analyzeMerchantScores (f : BenchFeatures) (pb : PeerBenchmarks) :
    BenchScores :=
  let aovScore := calculatePercentileScore f.aov pb.aov_p25 pb.aov_p50 pb.aov_p75
  let ltvScore := calculatePercentileScore f.ltv pb.ltv_p25 pb.ltv_p50 pb.ltv_p75
  let rprScore := calculatePercentileScore f.repeat_purchase_rate pb.rpr_p25 pb.rpr_p50 pb.rpr_p75
  { aov_score := aovScore
    ltv_score := ltvScore
    repeat_rate_score := rprScore
    engagement_score := f.campaign_engagement * 100
    overall_score := (aovScore + ltvScore + rprScore) / 3 }

/-- The per-metric performance scores of an analysis result: the scores the
engine computes with its percentile performance scorer
(`_calculate_percentile_score`); the engagement score is a raw engagement
rate times 100, not a performance score. -/
def perMetricPerformanceScores (s : BenchScores) : List ℚ :=
  [s.aov_score, s.ltv_score, s.repeat_rate_score]

/-! ## Drift monitor (backend/app/ml/monitoring/drift.py) -/

/-- backend/app/models/feedback.py: the FeedbackEvent columns consumed by
check_model_drift (`variance` is nullable; `created_at` is modelled as a
natural-number timestamp). -/
structure FeedbackRow where
  variance : Option ℚ
  created_at : ℕ
deriving DecidableEq

/-- The value the SQL query
`SELECT avg(variance) FROM feedback_events WHERE variance IS NOT NULL
 ORDER BY created_at DESC LIMIT 100`
yields on a dialect that accepts it (the SQLite test database): the
aggregate is computed over every row with a known variance — ORDER BY and
LIMIT act on the (single-row) aggregated result, not on its inputs — and
is NULL when no such row exists. -/
def avgVariance (rows : List FeedbackRow) : Option ℚ :=
  match rows.filterMap (fun r => r.variance) with
  | [] => none
  | v :: vs => some ((v :: vs).sum / (v :: vs).length)

/-- The SQL dialects the application touches: PostgreSQL in deployment,
SQLite in the test suite. -/
inductive SqlDialect
  | postgres
  | sqlite
deriving DecidableEq

/-- The backend `check_model_drift` actually runs against:
`async_session_factory` is bound to the engine built from
`settings.DATABASE_URL`, which config.py assembles as
`postgresql+asyncpg://...`. -/
def configuredDialect : SqlDialect := SqlDialect.postgres

/-- Outcome of executing the aggregate query of drift.py lines 32-38.
PostgreSQL rejects the bare `created_at` in the ORDER BY of an aggregate
query (it must appear in GROUP BY or inside an aggregate), so the execute
raises; a lenient dialect such as SQLite returns the average over all
known-variance rows. -/
def runAvgVarianceQuery (dialect : SqlDialect) (rows : List FeedbackRow) :
    Except Unit (Option ℚ) :=
  match dialect with
  | SqlDialect.postgres => Except.error ()
  | SqlDialect.sqlite => Except.ok (avgVariance rows)

/-- backend/app/ml/monitoring/drift.py, check_model_drift:
returns False when the training metadata file is absent; reads the baseline
accuracy from it (callers supply the 0.85 default through `baselineAcc`);
executes the aggregate query on the given backend — a raised query error is
swallowed into False by the blanket `except`, as is a NULL average; on a
successful non-NULL average derives `current = 1 - abs(avg)` and reports
drift iff `(baseline - current) / baseline > threshold`.  A zero baseline
makes the Python division raise ZeroDivisionError, which the same `except`
swallows into False. -/
def checkModelDrift (dialect : SqlDialect) (metadataExists : Bool)
    (baselineAcc : ℚ) (rows : List FeedbackRow) (threshold : ℚ) : Bool :=
  if metadataExists = false then false
  else
    match runAvgVarianceQuery dialect rows with
    | Except.error _ => false
    | Except.ok none => false
    | Except.ok (some av) =>
        if baselineAcc = 0 then false
        else
          let current := 1 - qabs av
          decide ((baselineAcc - current) / baselineAcc > threshold)

/-- Stated from the claim's words, for comparison with the source: the
current-accuracy proxy as the claim describes it — one minus the mean of
the absolute variances of the most recent 100 feedback rows that have a
known variance. -/
def claimCurrentAccuracy (rows : List FeedbackRow) : Option ℚ :=
  let recent := (sortByDesc (fun r => (r.created_at : ℚ))
    (rows.filter (fun r => r.variance.isSome))).take 100
  match recent.filterMap (fun r => r.variance) with
  | [] => none
  | v :: vs => some (1 - ((v :: vs).map qabs).sum / (v :: vs).length)

/-! ## Feature store (backend/app/ml/feature_store.py) -/

/-- A feature-map value: features mix strings (merchant id, timestamp) and
numbers. -/
inductive FeatVal
  | num (q : ℚ)
  | str (s : String)
deriving DecidableEq

/-- The feature dict built by FeatureStore.get_merchant_features from a
merchant row (NULL columns become 0); `now` stands for
`datetime.utcnow().isoformat()`. -/
def buildMerchantFeatures (m : Merchant) (now : String) :
    List (String × FeatVal) :=
  [("merchant_id", FeatVal.str m.merchant_id),
   ("monthly_revenue", FeatVal.num (m.monthly_revenue.getD 0)),
   ("total_customers", FeatVal.num ((m.total_customers.getD 0 : ℤ) : ℚ)),
   ("total_orders", FeatVal.num ((m.total_orders.getD 0 : ℤ) : ℚ)),
   ("aov", FeatVal.num (m.aov.getD 0)),
   ("repeat_purchase_rate", FeatVal.num (m.repeat_purchase_rate.getD 0)),
   ("ltv", FeatVal.num (m.ltv.getD 0)),
   ("email_subscriber_count", FeatVal.num ((m.email_subscriber_count.getD 0 : ℤ) : ℚ)),
   ("timestamp", FeatVal.str now)]

/-- FeatureStore.get_merchant_features.  `cacheRes` models the Redis read
together with the JSON decode (both failure modes are caught and fall
through to the database path); `dbRes` models the merchant lookup, whose
failure is caught by the outer handler and turned into `{}`; a missing
merchant also yields `{}`; `cacheWriteRes` models the Redis write, whose
failure is logged and swallowed.  The function never lets an exception
escape: every branch returns `Except.ok`. -/
def getMerchantFeatures (cacheRes : Except Unit (Option (List (String × FeatVal))))
    (dbRes : Except Unit (Option Merchant))
    (cacheWriteRes : Except Unit Unit) (now : String) :
    Except Unit (List (String × FeatVal)) :=
  match cacheRes with
  | Except.ok (some cached) => Except.ok cached
  | _ =>
      match dbRes with
      | Except.error _ => Except.ok []
      | Except.ok none => Except.ok []
      | Except.ok (some m) =>
          let features := buildMerchantFeatures m now
          match cacheWriteRes with
          | _ => Except.ok features

/-- The cache did not serve the request: a miss or a failed/undecodable
read. -/
def cacheMiss (cacheRes : Except Unit (Option (List (String × FeatVal)))) :
    Prop :=
  cacheRes = Except.ok none ∨ cacheRes = Except.error ()

/-! ## Derived factors and concrete instances used by the theorems -/

/-- The multiplier the benchmark branch of `calculatePriorityScore`
contributes: 1.2 when the latest benchmark overall score is below 50,
otherwise 1. -/
def benchFactor : Option BenchmarkScore → ℚ
  | some bb => if bb.overall_score < 50 then 6/5 else 1
  | none => 1

/-- The multiplier the persona-boost loop of `calculatePriorityScore`
contributes: 1.15 for every persona-boost keyword contained in the first
word of the template description, 1 without a discovery profile. -/
def personaFactor (d : Option DiscoveryProfile) (t : StrategyTemplate) : ℚ :=
  match d with
  | none => 1
  | some dd =>
      ((personaBoosts.lookup dd.persona).getD []).foldl
        (fun acc bs =>
          if strContains (firstWord t.description) bs then acc * (23/20) else acc) 1

/-- The eligibility multiplier of `calculatePriorityScore`: 0.3 when the
candidate is ineligible, otherwise 1. -/
def eligFactor (e : Bool) : ℚ := if e then 1 else 3/10

/-- A concrete merchant used to instantiate the engine. -/
def merchantA : Merchant :=
  { merchant_id := "M1", monthly_revenue := some 1000, aov := some 100,
    repeat_purchase_rate := some (1/2), ltv := some 200,
    email_subscriber_count := some 500, total_customers := some 50,
    total_orders := some 80 }

/-- A concrete strategy template with no eligibility thresholds. -/
def templateA : StrategyTemplate :=
  { description := "Welcome Series automation", expected_roi := 120 }

/-- A concrete discovery profile. -/
def discoveryA : DiscoveryProfile :=
  { persona := "Brand Builder", maturity_stage := "growth" }

/-- A concrete active `filter_out` rule targeting every strategy type whose
condition (persona equals Brand Builder, case-insensitively) matches
`merchantA`'s context. -/
def ruleA : StrategyRule :=
  { rule_name := "suppress-all-for-brand-builders", description := "",
    condition_metric := "persona", operator := "eq",
    threshold_value := "Brand Builder", action_type := "filter_out",
    target_strategy_type := "All", impact_factor := 1, is_active := true }

/-- A concrete recommendation run for `merchantA` with the discovery
profile present, no benchmark row, the ranker predicting 80, and the single
template `templateA`. -/
def strategyRunWithDiscovery : Except Unit (List StrategyRec) :=
  generateStrategies true merchantA (Except.ok (some discoveryA))
    (Except.ok none) (Except.ok ()) (Except.ok 80)
    [("Welcome Series", templateA)] 5

/-- First of two textually identical recommendation runs. -/
def strategyRunFirst : Except Unit (List StrategyRec) :=
  generateStrategies true merchantA (Except.ok none) (Except.ok none)
    (Except.ok ()) (Except.ok 80) [("Welcome Series", templateA)] 5

/-- Second of two textually identical recommendation runs. -/
def strategyRunSecond : Except Unit (List StrategyRec) :=
  generateStrategies true merchantA (Except.ok none) (Except.ok none)
    (Except.ok ()) (Except.ok 80) [("Welcome Series", templateA)] 5

/-- Two feedback rows whose signed variances cancel: +0.5 and -0.5. -/
def driftRowsCancelling : List FeedbackRow :=
  [⟨some (1/2), 1⟩, ⟨some (-(1/2)), 0⟩]

/-! ## Helper lemmas -/

/-- Pulling the initial accumulator out of the persona-boost fold. -/
theorem foldlBoostMul (name : String) (l : List String) (s : ℚ) :
    l.foldl (fun acc bs => if strContains name bs then acc * (23/20) else acc) s
      = s * l.foldl (fun acc bs => if strContains name bs then acc * (23/20) else acc) 1 := by
  induction l generalizing s with
  | nil => simp
  | cons b bs ih =>
      simp only [List.foldl_cons]
      by_cases hb : strContains name b
      · rw [if_pos hb, if_pos hb, ih (s * (23/20)), ih (1 * (23/20))]; ring
      · rw [if_neg hb, if_neg hb, ih s]

/-! ## Claim theorems -/

/-- C1 (counterexample): an active `filter_out` rule targeting "All" whose
condition matches the merchant's context does not remove the matching
candidate — the run still returns it (here as its only, hence top-ranked,
item), because `generateStrategies` never consults rules. -/
theorem c1_matching_filter_rule_candidate_survives :
    ruleA.is_active = true ∧ ruleA.action_type = "filter_out" ∧
    ruleA.target_strategy_type = "All" ∧
    evalRuleCondition ruleA (buildRuleContext merchantA (some discoveryA) none) = true ∧
    resultNames strategyRunWithDiscovery = ["Welcome Series"] := by
  refine ⟨rfl, rfl, rfl, by decide, ?_⟩
  have h1 : firstWord "Welcome Series automation" = "Welcome" := by decide
  have h2 : strContains "Welcome" "Post-Purchase" = false := by decide
  have h3 : strContains "Welcome" "VIP Segment" = false := by decide
  norm_num [strategyRunWithDiscovery, generateStrategies, resultNames,
    scoreAllTemplates, buildStrategyRec, sortByDesc, insertByDesc, merchantA,
    templateA, discoveryA, checkEligibility, calculatePriorityScore,
    personaBoosts, h1, h2, h3, round2, roundHalfEven, List.lookup]

/-- C1 (amended): decision rules are never consulted by a recommendation
run — every template contributes exactly one scored candidate, so no rule
(filter_out or boost_score) can remove or rescale any of them. -/
theorem c1_rules_never_filter_candidates (base : ℚ) (m : Merchant)
    (d : Option DiscoveryProfile) (b : Option BenchmarkScore)
    (templates : List (String × StrategyTemplate)) :
    (scoreAllTemplates base m d b templates).map (fun r => r.strategy_name)
      = templates.map Prod.fst := by
  simp [scoreAllTemplates, buildStrategyRec]

/-- C2 (code bug): `exclude_names` is not a parameter of
`StrategyEngine.generate_strategies`, so the call the /generate endpoint
makes binds to a TypeError (unexpected keyword argument) instead of an
exclusion-aware run. -/
theorem c2_generate_call_unexpected_keyword :
    generateStrategiesParams.contains "exclude_names" = false ∧
    generateEndpointCall = Except.error "unexpected keyword argument" :=
  ⟨rfl, rfl⟩

/-- C3 (counterexample): with two known variances +0.5 and -0.5, baseline
0.85 and threshold 0.15, the claim's current accuracy (one minus the mean
of the absolute variances of the most recent rows) is 0.5 and its drift
ratio exceeds the threshold, so the claim requires `true`; the code returns
`false` on both backends — on the deployed PostgreSQL engine the aggregate
query raises a grouping error that the blanket except swallows, and even on
the lenient test dialect the signed variances cancel before `abs`. -/
theorem c3_signed_mean_cancellation :
    claimCurrentAccuracy driftRowsCancelling = some (1/2) ∧
    ((17:ℚ)/20 - 1/2) / (17/20) > 3/20 ∧
    checkModelDrift configuredDialect true (17/20) driftRowsCancelling (3/20) = false ∧
    checkModelDrift SqlDialect.sqlite true (17/20) driftRowsCancelling (3/20) = false := by
  refine ⟨?_, by norm_num, rfl, ?_⟩
  · norm_num [claimCurrentAccuracy, driftRowsCancelling, sortByDesc,
      insertByDesc, qabs, List.filterMap, List.filter]
  · norm_num [checkModelDrift, runAvgVarianceQuery, avgVariance,
      driftRowsCancelling, qabs, List.filterMap]

/-- C3 (amended): on the configured postgresql+asyncpg backend the drift
check never returns true — PostgreSQL rejects the bare `created_at` in the
ORDER BY of the aggregate query, the execute raises, and the blanket except
turns the error into "no drift" — for every metadata state, baseline,
feedback store and threshold. -/
theorem c3_deployed_drift_check_always_false (metadataExists : Bool)
    (b t : ℚ) (rows : List FeedbackRow) :
    checkModelDrift configuredDialect metadataExists b rows t = false := by
  cases metadataExists <;> rfl

/-- C4: when the predictor models failed to load, a recommendation run
returns the empty list — no database read, feature preparation or
prediction is attempted, so no error can reach the caller — for every
merchant, every limit and every state of the outside world. -/
theorem c4_models_unavailable_returns_empty (m : Merchant)
    (discoveryRes : Except Unit (Option DiscoveryProfile))
    (benchmarkRes : Except Unit (Option BenchmarkScore))
    (prepRes : Except Unit Unit) (predictRes : Except Unit ℚ)
    (templates : List (String × StrategyTemplate)) (limit : ℕ) :
    generateStrategies false m discoveryRes benchmarkRes prepRes predictRes
      templates limit = Except.ok [] := rfl

/-- C5 (counterexample): for value=75, p25=50, p50=100, p75=150 the derived
qualitative status is not "average": the score 37.5 is below 40, so
`get_stat` returns "below". -/
theorem c5_status_not_average :
    getStat (calculatePerformanceScore 75 50 100 150) ≠ "average" := by
  have h : getStat (calculatePerformanceScore 75 50 100 150) = "below" := by
    norm_num [calculatePerformanceScore, round2, roundHalfEven, getStat]
  rw [h]
  decide

/-- C5 (amended): for value=75, p25=50, p50=100, p75=150 the percentile
scorer returns exactly 37.5 and the derived qualitative status is "below"
(the status rule maps scores under 40 to "below"). -/
theorem c5_score_375_status_below :
    calculatePerformanceScore 75 50 100 150 = 75/2 ∧
    getStat (calculatePerformanceScore 75 50 100 150) = "below" := by
  constructor <;> norm_num [calculatePerformanceScore, round2, roundHalfEven, getStat]

/-- C6 (counterexample): at value=0 with p25=p50=p75=0 the scorer returns
25, not 0. -/
theorem c6_p25_zero_returns_25_not_0 :
    calculatePerformanceScore 0 0 0 0 ≠ 0 ∧
    calculatePerformanceScore 0 0 0 0 = 25 := by
  constructor <;> norm_num [calculatePerformanceScore, round2, roundHalfEven]

/-- C6 (amended): for every value with value ≤ p25 and p25 = 0, both
percentile scorers return the flat guard value 25. -/
theorem c6_p25_zero_flat_25 (v p50 p75 : ℚ) (h : v ≤ 0) :
    calculatePerformanceScore v 0 p50 p75 = 25 ∧
    calculatePercentileScore v 0 p50 p75 = 25 := by
  have h25 : round2 25 = 25 := by norm_num [round2, roundHalfEven]
  constructor <;>
    simp [calculatePerformanceScore, calculatePercentileScore, h, h25]

/-- C6 (witness): the amended flat-25 behaviour at value 0. -/
theorem c6_p25_zero_flat_25_witness :
    calculatePerformanceScore 0 0 0 0 = 25 ∧
    calculatePercentileScore 0 0 0 0 = 25 :=
  c6_p25_zero_flat_25 0 0 0 (by norm_num)

/-- C7: when no feedback row has a known variance (the code's minimum
sample count is one such row), the drift check returns false on every
backend — NULL aggregate on the lenient dialect, swallowed query error on
PostgreSQL — regardless of the metadata, baseline and threshold, and
regardless of what the rows without recorded variance look like. -/
theorem c7_no_known_variance_no_drift (dialect : SqlDialect)
    (metadataExists : Bool) (b t : ℚ) (rows : List FeedbackRow)
    (h : rows.filterMap (fun r => r.variance) = []) :
    checkModelDrift dialect metadataExists b rows t = false := by
  cases dialect <;> cases metadataExists <;>
    simp [checkModelDrift, runAvgVarianceQuery, avgVariance, h]

/-- C7 (witness): no drift on a test-dialect store holding one row with
unknown variance, at baseline 0.85 and threshold 0.15. -/
theorem c7_no_known_variance_no_drift_witness :
    checkModelDrift SqlDialect.sqlite true (17/20) [(⟨none, 9⟩ : FeedbackRow)] (3/20)
      = false :=
  c7_no_known_variance_no_drift SqlDialect.sqlite true (17/20) (3/20)
    [⟨none, 9⟩] rfl

/-- C8 (counterexample): two recommendation runs with identical inputs
return identical (byte-identical) rankings — here both produce the single
candidate with priority score exactly 96 — because no jitter is attached
anywhere in the scoring path. -/
theorem c8_identical_runs_identical_ranking :
    strategyRunFirst = strategyRunSecond ∧
    resultScores strategyRunFirst = [96] := by
  refine ⟨rfl, ?_⟩
  norm_num [strategyRunFirst, generateStrategies, resultScores,
    scoreAllTemplates, buildStrategyRec, sortByDesc, insertByDesc, merchantA,
    templateA, checkEligibility, calculatePriorityScore, personaBoosts,
    round2, roundHalfEven]

/-- C8 (amended): the final priority score is a deterministic function of
its inputs with the closed form
`round2 (base * roi/100 * benchFactor * personaFactor * eligFactor)`; no
randomized jitter enters the computation. -/
theorem c8_priority_score_deterministic_closed_form (base : ℚ)
    (t : StrategyTemplate) (m : Merchant) (d : Option DiscoveryProfile)
    (b : Option BenchmarkScore) (e : Bool) :
    calculatePriorityScore base t m d b e
      = round2 (base * (t.expected_roi / 100) * benchFactor b
          * personaFactor d t * eligFactor e) := by
  cases d <;> cases b <;> cases e <;>
    simp only [calculatePriorityScore, benchFactor, personaFactor, eligFactor,
      Bool.false_eq_true, eq_self_iff_true, if_true, if_false, ite_true,
      ite_false, mul_one, one_mul] <;>
    (try split_ifs) <;>
    (try rw [foldlBoostMul]) <;>
    first
    | rfl
    | (congr 1 ; ring)

/-- C9: the overall benchmark score is the unweighted arithmetic mean of
the per-metric performance scores (the AOV, LTV and repeat-rate scores the
engine computes with its percentile performance scorer). -/
theorem c9_overall_is_mean_of_performance_scores (f : BenchFeatures)
    (pb : PeerBenchmarks) :
    (analyzeMerchantScores f pb).overall_score
      = (perMetricPerformanceScores (analyzeMerchantScores f pb)).sum
        / (perMetricPerformanceScores (analyzeMerchantScores f pb)).length := by
  simp [analyzeMerchantScores, perMetricPerformanceScores]
  ring

/-- C10: whenever the cache does not serve the request and the merchant
row is absent from the backing store or the backing-store read itself
fails, `get_merchant_features` returns the empty feature map wrapped in a
normal return — never a raised error. -/
theorem c10_missing_merchant_empty_features
    (cacheRes : Except Unit (Option (List (String × FeatVal))))
    (dbRes : Except Unit (Option Merchant)) (cw : Except Unit Unit)
    (now : String) (h1 : cacheMiss cacheRes)
    (h2 : dbRes = Except.error () ∨ dbRes = Except.ok none) :
    getMerchantFeatures cacheRes dbRes cw now = Except.ok [] := by
  rcases h1 with h | h <;> subst h <;> rcases h2 with h | h <;> subst h <;> rfl

/-- C10 (witness): empty feature map on a cache miss with a missing
merchant row. -/
theorem c10_missing_merchant_empty_features_witness :
    getMerchantFeatures (Except.ok none) (Except.ok none) (Except.ok ()) "t"
      = Except.ok [] :=
  c10_missing_merchant_empty_features (Except.ok none) (Except.ok none)
    (Except.ok ()) "t" (Or.inl rfl) (Or.inr rfl)

end Bravola
